import Mathlib

/-!
Verification model of `src/rag_doc_ingestion/ingest_docs.py`: a one-shot
ingestion pipeline that loads documents from a directory, chunks them into
nodes, embeds each node and persists the records into a Chroma collection.

The script's own contribution is sequencing and error handling; the loader,
chunker, embedding model and vector store are external libraries. Those
externals are modelled from the contracts the specification states for them,
and their per-input behaviour (directory contents, chunking of one document,
failure of the store client or of index construction) is supplied by an
environment record, so theorems quantify over every possible behaviour of the
collaborators.
-/

namespace Ingest

/-- Logging levels the script uses: it only ever calls `logger.info` and
`logger.error` (source lines 25, 30, 36, 44, 46, 49, 54, 62, 71, 74). -/
inductive Level
  | INFO
  | ERROR
deriving DecidableEq, Repr

/-- Output streams a log handler can write to. -/
inductive OutStream
  | stdout
  | stderr
deriving DecidableEq, Repr

/-- An error message carried by a raised exception. -/
abbrev Err := String

/-- One emitted log record: level and message. -/
abbrev LogLine := Level × String

/-- A loaded document: file text plus provenance metadata (source path). -/
structure Document where
  text : String
  sourcePath : String
deriving DecidableEq, Repr

/-- A node (chunk): a text segment with a back-reference to its source
document's metadata. -/
structure Node where
  text : String
  metadata : String
deriving DecidableEq, Repr

/-- The chunking parameters handed to `SimpleNodeParser.from_defaults`. -/
structure ChunkParams where
  chunk_size : Nat
  chunk_overlap : Nat
deriving DecidableEq, Repr

/-- One persisted vector-store record: (vector, text, metadata). Vector
components are modelled as integers; their numeric values never matter to the
orchestration, only the vector's length does. -/
structure Record where
  vector : List Int
  text : String
  metadata : String
deriving DecidableEq, Repr

/-- Modelled from the spec: the HuggingFace embedding model is "a pre-loaded
model mapping each text segment to a fixed-dimensional numeric vector"; its
numerical computation is an external collaborator, so the component values are
an arbitrary function while the output dimension is a fixed declared constant
of the model. -/
structure EmbedModel where
  dim : Nat
  component : String → Nat → Int

/-- The embedding of a text: a vector of exactly `dim` components. -/
def EmbedModel.embed (m : EmbedModel) (s : String) : List Int :=
  (List.range m.dim).map (m.component s)

/-- Modelled from the spec: `DocIngestionSettings` (its module is not under
`src/`) "resolves three parameters from the process environment: a source
documents directory, a target storage directory, and a named collection
identifier". -/
structure DocIngestionSettings where
  DOCUMENTS_DIR : String
  VECTOR_STORE_DIR : String
  COLLECTION_NAME : String
deriving DecidableEq, Repr

/-- The persistent store rooted at the configured path: named collections,
each holding its list of records. -/
abbrev StoreState := List (String × List Record)

/-- Look a collection up by name in the store. -/
def findCollection : StoreState → String → Option (List Record)
  | [], _ => none
  | (n, rs) :: t, name => if n = name then some rs else findCollection t name

/-- The external operations the driver invokes, in the order the source
invokes them. -/
inductive Step
  | loadDocs
  | parseNodes
  | openClient
  | getOrCreateCollection
  | buildIndex
deriving DecidableEq, Repr

/-- The behaviours of all external collaborators for one run, plus the global
configuration and the state of the persistent store before the run. -/
structure Env where
  settings : DocIngestionSettings
  embed_model : EmbedModel
  /-- Filesystem: the readable documents of each existing directory
  (`none` = the directory does not exist). -/
  dirContents : String → Option (List Document)
  /-- The external chunker's splitting of one document under given
  parameters. -/
  chunkDoc : ChunkParams → Document → List Node
  /-- A failure raised by `chromadb.PersistentClient`, when any. -/
  clientOpenError : Option Err
  /-- A failure raised during `VectorStoreIndex` construction (embedding or
  store write errors), when any. -/
  indexError : Option Err
  /-- The persistent store contents at the configured path before the run. -/
  store : StoreState

/-- Modelled from the spec: `SimpleDirectoryReader(input_dir=...).load_data()`
(source lines 39 and 40) — "Load all documents from the configured directory.
Fails if the directory does not exist or contains no readable documents
(propagates whatever error the loader raises)." -/
def loadData (env : Env) : Except Err (List Document) :=
  match env.dirContents env.settings.DOCUMENTS_DIR with
  | none =>
      Except.error ("Directory " ++ env.settings.DOCUMENTS_DIR ++ " does not exist.")
  | some [] =>
      Except.error ("No files found in " ++ env.settings.DOCUMENTS_DIR ++ ".")
  | some docs => Except.ok docs

/-- The chunking parameters the source passes:
`SimpleNodeParser.from_defaults(chunk_size=1024, chunk_overlap=50)`
(source line 43). -/
def from_defaults : ChunkParams := ⟨1024, 50⟩

/-- Modelled from the spec: `parser.get_nodes_from_documents(documents)`
(source line 45) — the chunker "splits each document into fixed-size
overlapping text segments"; the per-document splitting rule itself is the
external collaborator `Env.chunkDoc`. -/
def get_nodes_from_documents (env : Env) (p : ChunkParams)
    (docs : List Document) : List Node :=
  (docs.map (env.chunkDoc p)).flatten

/-- Modelled from the spec: `chromadb.PersistentClient(path=...)` (source
line 50) opens the persistent, disk-backed store rooted at the configured
path; store failures at open are supplied by `Env.clientOpenError`. -/
def PersistentClient (env : Env) : Except Err StoreState :=
  match env.clientOpenError with
  | some e => Except.error e
  | none => Except.ok env.store

/-- Modelled from the spec: `db.get_or_create_collection(name=...)` (source
line 53) — the collection is "Created on first use (get or create —
idempotent), otherwise reused across runs". -/
def get_or_create_collection (s : StoreState) (name : String) : StoreState :=
  if (findCollection s name).isSome then s else s ++ [(name, [])]

/-- Modelled from the spec: `VectorStoreIndex(nodes, ...)` (source lines
65 to 70) "computes one embedding vector per node and writes all
(vector, text, metadata) triples into the collection". -/
def indexRecords (m : EmbedModel) (nodes : List Node) : List Record :=
  nodes.map (fun n => ⟨m.embed n.text, n.text, n.metadata⟩)

/-- Bulk insertion into a named collection: append the records to that
collection's contents, leaving every other collection unchanged. -/
def addToCollection (s : StoreState) (name : String) (recs : List Record) :
    StoreState :=
  s.map (fun p => if p.1 = name then (p.1, p.2 ++ recs) else p)

/-- The observable outcome of one call of the driver. -/
structure RunResult where
  /-- The function's return value: 0 on success, 1 from the `except` arm. -/
  retval : Nat
  /-- The log records emitted during the call, in order. -/
  logs : List LogLine
  /-- The external operations invoked, in order. -/
  steps : List Step
  /-- The persistent store contents after the call. -/
  store : StoreState
  /-- The chunking parameters the parser was built with (`none` when the
  run failed before the parser was constructed). -/
  parserParams : Option ChunkParams
  /-- The records this call wrote into the collection. -/
  written : List Record
deriving Repr

/-- `build_vector_store_from_documents` (source lines 29 to 75), translated
step for step: read the three settings, load documents, build the parser with
the fixed defaults and chunk, open the persistent client, get-or-create the
collection, construct the index (embedding every node and writing the
records), return 0; any exception raised inside the `try` block is caught
generically, logged at ERROR level, and turned into return value 1. -/
def build_vector_store_from_documents (env : Env) : RunResult :=
  match loadData env with
  | Except.error e =>
      { retval := 1
        logs := [(Level.INFO, "Starting vector store ingestion process."),
                 (Level.INFO, "Loading documents from directory: " ++
                    env.settings.DOCUMENTS_DIR),
                 (Level.ERROR, "Error during vector store build: " ++ e)]
        steps := [Step.loadDocs]
        store := env.store
        parserParams := none
        written := [] }
  | Except.ok documents =>
      match PersistentClient env with
      | Except.error e =>
          { retval := 1
            logs := [(Level.INFO, "Starting vector store ingestion process."),
                     (Level.INFO, "Loading documents from directory: " ++
                        env.settings.DOCUMENTS_DIR),
                     (Level.INFO, "Parsing documents into nodes."),
                     (Level.INFO, "Parsed " ++
                        toString (get_nodes_from_documents env from_defaults
                          documents).length ++ " nodes."),
                     (Level.INFO, "Initializing ChromaDB persistent client at: " ++
                        env.settings.VECTOR_STORE_DIR),
                     (Level.ERROR, "Error during vector store build: " ++ e)]
            steps := [Step.loadDocs, Step.parseNodes, Step.openClient]
            store := env.store
            parserParams := some from_defaults
            written := [] }
      | Except.ok db =>
          match env.indexError with
          | some e =>
              { retval := 1
                logs := [(Level.INFO, "Starting vector store ingestion process."),
                         (Level.INFO, "Loading documents from directory: " ++
                            env.settings.DOCUMENTS_DIR),
                         (Level.INFO, "Parsing documents into nodes."),
                         (Level.INFO, "Parsed " ++
                            toString (get_nodes_from_documents env from_defaults
                              documents).length ++ " nodes."),
                         (Level.INFO, "Initializing ChromaDB persistent client at: " ++
                            env.settings.VECTOR_STORE_DIR),
                         (Level.INFO, "Creating Chroma vector store with collection name: " ++
                            env.settings.COLLECTION_NAME),
                         (Level.INFO, "Building vector store index."),
                         (Level.ERROR, "Error during vector store build: " ++ e)]
                steps := [Step.loadDocs, Step.parseNodes, Step.openClient,
                          Step.getOrCreateCollection, Step.buildIndex]
                store := get_or_create_collection db env.settings.COLLECTION_NAME
                parserParams := some from_defaults
                written := [] }
          | none =>
              { retval := 0
                logs := [(Level.INFO, "Starting vector store ingestion process."),
                         (Level.INFO, "Loading documents from directory: " ++
                            env.settings.DOCUMENTS_DIR),
                         (Level.INFO, "Parsing documents into nodes."),
                         (Level.INFO, "Parsed " ++
                            toString (get_nodes_from_documents env from_defaults
                              documents).length ++ " nodes."),
                         (Level.INFO, "Initializing ChromaDB persistent client at: " ++
                            env.settings.VECTOR_STORE_DIR),
                         (Level.INFO, "Creating Chroma vector store with collection name: " ++
                            env.settings.COLLECTION_NAME),
                         (Level.INFO, "Building vector store index."),
                         (Level.INFO, "Vector store build successfully.")]
                steps := [Step.loadDocs, Step.parseNodes, Step.openClient,
                          Step.getOrCreateCollection, Step.buildIndex]
                store := addToCollection
                    (get_or_create_collection db env.settings.COLLECTION_NAME)
                    env.settings.COLLECTION_NAME
                    (indexRecords env.embed_model
                      (get_nodes_from_documents env from_defaults documents))
                parserParams := some from_defaults
                written := indexRecords env.embed_model
                    (get_nodes_from_documents env from_defaults documents) }

/-- The collaborator behaviours seen by a whole process run, including the
module-level startup: loading the settings object and loading the HuggingFace
embedding model may themselves raise. -/
structure ScriptEnv where
  settingsResult : Except Err DocIngestionSettings
  embedResult : Except Err EmbedModel
  dirContents : String → Option (List Document)
  chunkDoc : ChunkParams → Document → List Node
  clientOpenError : Option Err
  indexError : Option Err
  store : StoreState

/-- An event of the whole process: a module-level startup action, or one of
the driver's external operations. -/
inductive ScriptStep
  | loadSettings
  | loadEmbedModel
  | runStep (s : Step)
deriving DecidableEq, Repr

/-- The observable outcome of running the script as the entry point. -/
structure ScriptResult where
  /-- The process exit code. -/
  processExitCode : Nat
  logs : List LogLine
  events : List ScriptStep
  store : StoreState
deriving Repr

/-- The driver's environment assembled at module level: the global `settings`
and `embed_model` plus the collaborators. -/
def mkEnv (senv : ScriptEnv) (s : DocIngestionSettings) (m : EmbedModel) : Env :=
  { settings := s
    embed_model := m
    dirContents := senv.dirContents
    chunkDoc := senv.chunkDoc
    clientOpenError := senv.clientOpenError
    indexError := senv.indexError
    store := senv.store }

/-- The whole script run as the entry point (source lines 14 to 26 and 78
to 79): module level first configures logging, constructs
`DocIngestionSettings()`, logs, and eagerly constructs `HuggingFaceEmbedding()`;
then the `__main__` block calls `build_vector_store_from_documents()` and
DISCARDS its return value, so the interpreter exits 0 whenever startup
succeeded. An exception raised at module level is uncaught and makes the
process exit 1. -/
def runScript (senv : ScriptEnv) : ScriptResult :=
  match senv.settingsResult with
  | Except.error _ =>
      { processExitCode := 1
        logs := []
        events := [ScriptStep.loadSettings]
        store := senv.store }
  | Except.ok s =>
      match senv.embedResult with
      | Except.error _ =>
          { processExitCode := 1
            logs := [(Level.INFO, "Loading HuggingFace embedding model...")]
            events := [ScriptStep.loadSettings, ScriptStep.loadEmbedModel]
            store := senv.store }
      | Except.ok m =>
          { processExitCode := 0
            logs := (Level.INFO, "Loading HuggingFace embedding model...") ::
              (build_vector_store_from_documents (mkEnv senv s m)).logs
            events := ScriptStep.loadSettings :: ScriptStep.loadEmbedModel ::
              ((build_vector_store_from_documents (mkEnv senv s m)).steps.map
                ScriptStep.runStep)
            store := (build_vector_store_from_documents (mkEnv senv s m)).store }

/-- The logging threshold the source configures:
`logging.basicConfig(level=logging.INFO, ...)` (source lines 14 to 17). -/
def configuredLevel : Level := Level.INFO

/-- The severity name `%(levelname)s` renders for each level. -/
def Level.name : Level → String
  | Level.INFO => "INFO"
  | Level.ERROR => "ERROR"

/-- The configured log format (source line 16):
the single line `%(asctime)s - %(levelname)s - %(message)s`. -/
def formatLogLine (asctime : String) (l : LogLine) : String :=
  asctime ++ " - " ++ Level.name l.1 ++ " - " ++ l.2

/-- Modelled from the Python standard library's documented behaviour, which
the source relies on: `logging.basicConfig` called without a `stream` or
`filename` argument (source lines 14 to 17) installs a `StreamHandler` whose
default stream is `sys.stderr`, so every record the script logs is written to
the standard error stream. -/
def handlerStream : OutStream := OutStream.stderr

/-! Concrete collaborator behaviours used by counterexamples and witnesses. -/

/-- A concrete settings object. -/
def settings0 : DocIngestionSettings :=
  { DOCUMENTS_DIR := "data/documents"
    VECTOR_STORE_DIR := "data/vector_store"
    COLLECTION_NAME := "rag_docs" }

/-- A concrete embedding model with declared output dimension 3. -/
def embed0 : EmbedModel := ⟨3, fun _ i => Int.ofNat i⟩

/-- A concrete chunker: one node per document, carrying its text and path. -/
def chunk0 : ChunkParams → Document → List Node :=
  fun _ d => [⟨d.text, d.sourcePath⟩]

/-- A run in which the configured documents directory does not exist. -/
def envMissingDir : Env :=
  { settings := settings0
    embed_model := embed0
    dirContents := fun _ => none
    chunkDoc := chunk0
    clientOpenError := none
    indexError := none
    store := [] }

/-- A run in which the configured documents directory exists but is empty. -/
def envEmptyDir : Env :=
  { settings := settings0
    embed_model := embed0
    dirContents := fun _ => some []
    chunkDoc := chunk0
    clientOpenError := none
    indexError := none
    store := [] }

/-- A run over one readable document, with every collaborator succeeding. -/
def envOneDoc : Env :=
  { settings := settings0
    embed_model := embed0
    dirContents := fun _ => some [⟨"hello world", "data/documents/a.txt"⟩]
    chunkDoc := chunk0
    clientOpenError := none
    indexError := none
    store := [] }

/-- A whole-script run whose documents directory does not exist. -/
def senvMissingDir : ScriptEnv :=
  { settingsResult := Except.ok settings0
    embedResult := Except.ok embed0
    dirContents := fun _ => none
    chunkDoc := chunk0
    clientOpenError := none
    indexError := none
    store := [] }

/-- A whole-script run over one readable document with no failures. -/
def senvOneDoc : ScriptEnv :=
  { settingsResult := Except.ok settings0
    embedResult := Except.ok embed0
    dirContents := fun _ => some [⟨"hello world", "data/documents/a.txt"⟩]
    chunkDoc := chunk0
    clientOpenError := none
    indexError := none
    store := [] }

/-! Helper lemmas about the modelled store operations and the driver. -/

/-- The lookup equation on a non-empty store. -/
lemma findCollection_cons (n : String) (rs : List Record) (t : StoreState)
    (name : String) :
    findCollection ((n, rs) :: t) name =
      if n = name then some rs else findCollection t name := rfl

/-- Appending a fresh collection at the end is found when the name was
absent. -/
lemma findCollection_append_of_none (s : StoreState) (name : String)
    (rs : List Record) (h : findCollection s name = none) :
    findCollection (s ++ [(name, rs)]) name = some rs := by
  induction s with
  | nil => simp [findCollection]
  | cons a t ih =>
      obtain ⟨n, rs0⟩ := a
      by_cases hn : n = name
      · subst hn
        simp [findCollection_cons] at h
      · simp only [findCollection_cons, hn, if_false] at h
        simp only [List.cons_append, findCollection_cons, hn, if_false]
        exact ih h

/-- After get-or-create, the named collection exists and holds the prior
contents (or is empty when it was just created). -/
lemma findCollection_get_or_create (s : StoreState) (name : String) :
    findCollection (get_or_create_collection s name) name =
      some ((findCollection s name).getD []) := by
  unfold get_or_create_collection
  cases h : findCollection s name with
  | some r => simp [h]
  | none =>
      simp only [h, Option.isSome_none, Bool.false_eq_true, if_false,
        Option.getD_none]
      exact findCollection_append_of_none s name [] h

/-- Bulk insertion appends to the named collection's contents. -/
lemma findCollection_addToCollection (s : StoreState) (name : String)
    (rs w : List Record) (h : findCollection s name = some rs) :
    findCollection (addToCollection s name w) name = some (rs ++ w) := by
  induction s with
  | nil => simp [findCollection] at h
  | cons a t ih =>
      obtain ⟨n, rs0⟩ := a
      by_cases hn : n = name
      · subst hn
        rw [findCollection_cons, if_pos rfl] at h
        injection h with h
        subst h
        simp [addToCollection, findCollection_cons]
      · simp only [findCollection_cons, hn, if_false] at h
        simp only [addToCollection, List.map_cons, hn, if_false]
        simp only [findCollection_cons, hn, if_false]
        exact ih h

/-- Mapping the driver's steps into script events introduces no embedding-model
load event. -/
lemma count_loadEmbedModel_map_runStep (l : List Step) :
    (l.map ScriptStep.runStep).count ScriptStep.loadEmbedModel = 0 := by
  rw [List.count_eq_zero]
  simp

/-- Every record produced by index construction carries a vector of the
model's declared dimension. -/
lemma indexRecords_dim (m : EmbedModel) (nodes : List Node) (r : Record)
    (h : r ∈ indexRecords m nodes) : r.vector.length = m.dim := by
  unfold indexRecords at h
  obtain ⟨n, _, rfl⟩ := List.mem_map.mp h
  simp [EmbedModel.embed]

/-- On a successful run, the final store is the prior store with the
collection got-or-created and this run's records appended to it. -/
lemma build_success_store (env : Env)
    (h : (build_vector_store_from_documents env).retval = 0) :
    (build_vector_store_from_documents env).store =
      addToCollection
        (get_or_create_collection env.store env.settings.COLLECTION_NAME)
        env.settings.COLLECTION_NAME
        (build_vector_store_from_documents env).written := by
  cases hl : loadData env with
  | error e => simp [build_vector_store_from_documents, hl] at h
  | ok docs =>
      cases hc : env.clientOpenError with
      | some e =>
          simp [build_vector_store_from_documents, PersistentClient, hl, hc] at h
      | none =>
          cases hi : env.indexError with
          | some e =>
              simp [build_vector_store_from_documents, PersistentClient,
                hl, hc, hi] at h
          | none =>
              simp [build_vector_store_from_documents, PersistentClient,
                hl, hc, hi]

/-! The claims. -/

/-- C1: the claim says the process exit code is 1 when an exception occurs
during ingestion. The code contradicts this: `build_vector_store_from_documents`
does return 1 on failure, but the `__main__` block discards that return value
(there is no `sys.exit`), so on a run whose documents directory is missing the
function returns 1, an ERROR line is logged, and the process still exits 0. -/
theorem entryPointDiscardsReturnValue :
    (runScript senvMissingDir).processExitCode = 0 ∧
    (build_vector_store_from_documents (mkEnv senvMissingDir settings0 embed0)).retval = 1 ∧
    (runScript senvMissingDir).logs.getLast? =
      some (Level.ERROR,
        "Error during vector store build: Directory data/documents does not exist.") :=
  ⟨rfl, rfl, rfl⟩

/-- C2 counterexample: on an empty documents directory the loader fails (its
contract is to fail when the directory contains no readable documents), so the
run returns 1 with an ERROR log — not 0 with no error as the claim states. -/
theorem emptyDirectoryRunReturnsOne :
    (build_vector_store_from_documents envEmptyDir).retval = 1 ∧
    (build_vector_store_from_documents envEmptyDir).logs.getLast? =
      some (Level.ERROR,
        "Error during vector store build: No files found in data/documents.") :=
  ⟨rfl, rfl⟩

/-- C2 (amended): for an empty documents directory the loader raises, the
driver catches the error, logs it at ERROR level and returns 1; no records are
written and the store is untouched. -/
theorem emptyDirectoryRunFailsCleanly (env : Env)
    (h : env.dirContents env.settings.DOCUMENTS_DIR = some []) :
    (build_vector_store_from_documents env).retval = 1 ∧
    (build_vector_store_from_documents env).written = [] ∧
    (build_vector_store_from_documents env).store = env.store ∧
    (build_vector_store_from_documents env).logs.getLast? =
      some (Level.ERROR, "Error during vector store build: No files found in " ++
        env.settings.DOCUMENTS_DIR ++ ".") := by
  have hl : loadData env =
      Except.error ("No files found in " ++ env.settings.DOCUMENTS_DIR ++ ".") := by
    unfold loadData
    rw [h]
  unfold build_vector_store_from_documents
  rw [hl]
  exact ⟨rfl, rfl, rfl, rfl⟩

/-- C2 witness: the amended behaviour at the concrete empty-directory run. -/
theorem emptyDirectoryRunFailsCleanly_witness :
    (build_vector_store_from_documents envEmptyDir).retval = 1 ∧
    (build_vector_store_from_documents envEmptyDir).written = [] ∧
    (build_vector_store_from_documents envEmptyDir).store = envEmptyDir.store ∧
    (build_vector_store_from_documents envEmptyDir).logs.getLast? =
      some (Level.ERROR, "Error during vector store build: No files found in " ++
        envEmptyDir.settings.DOCUMENTS_DIR ++ ".") :=
  emptyDirectoryRunFailsCleanly envEmptyDir rfl

/-- C3: for every error `e` raised inside the driver's try block — a load
error, a store error at client open (reached because loading succeeded), or
an embedding/store error during index construction (reached because loading
and client open succeeded) — the driver catches it, its last log line is the
ERROR record carrying exactly that error's message, and it returns 1; the
same return value for all three kinds, so the exit code does not distinguish
them, no exception propagates (the function is total and returns), and no
external operation is ever re-invoked (no retries). -/
theorem everyErrorCaughtLoggedAndReturnsOne (env : Env) (e : Err)
    (h : loadData env = Except.error e ∨
      (∃ docs, loadData env = Except.ok docs ∧ env.clientOpenError = some e) ∨
      (∃ docs, loadData env = Except.ok docs ∧ env.clientOpenError = none ∧
        env.indexError = some e)) :
    (build_vector_store_from_documents env).retval = 1 ∧
    (build_vector_store_from_documents env).logs.getLast? =
      some (Level.ERROR, "Error during vector store build: " ++ e) ∧
    (build_vector_store_from_documents env).steps.Nodup := by
  rcases h with hl | ⟨docs, hl, hc⟩ | ⟨docs, hl, hc, hi⟩
  · unfold build_vector_store_from_documents
    rw [hl]
    refine ⟨rfl, rfl, ?_⟩
    show ([Step.loadDocs] : List Step).Nodup
    decide
  · have hpc : PersistentClient env = Except.error e := by
      unfold PersistentClient
      rw [hc]
    unfold build_vector_store_from_documents
    rw [hl, hpc]
    refine ⟨rfl, rfl, ?_⟩
    show ([Step.loadDocs, Step.parseNodes, Step.openClient] : List Step).Nodup
    decide
  · have hpc : PersistentClient env = Except.ok env.store := by
      unfold PersistentClient
      rw [hc]
    unfold build_vector_store_from_documents
    rw [hl, hpc, hi]
    refine ⟨rfl, rfl, ?_⟩
    show ([Step.loadDocs, Step.parseNodes, Step.openClient,
      Step.getOrCreateCollection, Step.buildIndex] : List Step).Nodup
    decide

/-- C3 witness: the concrete missing-directory run raises a load error inside
the try block; it is caught, logged last at ERROR level with its message, and
converted into return value 1, with no step re-invoked. -/
theorem everyErrorCaughtLoggedAndReturnsOne_witness :
    (build_vector_store_from_documents envMissingDir).retval = 1 ∧
    (build_vector_store_from_documents envMissingDir).logs.getLast? =
      some (Level.ERROR, "Error during vector store build: " ++
        "Directory data/documents does not exist.") ∧
    (build_vector_store_from_documents envMissingDir).steps.Nodup :=
  everyErrorCaughtLoggedAndReturnsOne envMissingDir
    "Directory data/documents does not exist." (Or.inl rfl)

/-- C4: when the configured documents directory does not exist, the run
returns 1, its last log line is an ERROR record, the persistent client is
never opened, and the store is left exactly as it was. -/
theorem missingDirectoryLeavesStoreUntouched (env : Env)
    (h : env.dirContents env.settings.DOCUMENTS_DIR = none) :
    (build_vector_store_from_documents env).retval = 1 ∧
    (build_vector_store_from_documents env).logs.getLast? =
      some (Level.ERROR, "Error during vector store build: Directory " ++
        env.settings.DOCUMENTS_DIR ++ " does not exist.") ∧
    Step.openClient ∉ (build_vector_store_from_documents env).steps ∧
    (build_vector_store_from_documents env).store = env.store := by
  have hl : loadData env =
      Except.error ("Directory " ++ env.settings.DOCUMENTS_DIR ++ " does not exist.") := by
    unfold loadData
    rw [h]
  unfold build_vector_store_from_documents
  rw [hl]
  refine ⟨rfl, rfl, ?_, rfl⟩
  show Step.openClient ∉ ([Step.loadDocs] : List Step)
  decide

/-- C4 witness: the missing-directory behaviour at a concrete run. -/
theorem missingDirectoryLeavesStoreUntouched_witness :
    (build_vector_store_from_documents envMissingDir).retval = 1 ∧
    (build_vector_store_from_documents envMissingDir).logs.getLast? =
      some (Level.ERROR, "Error during vector store build: Directory " ++
        envMissingDir.settings.DOCUMENTS_DIR ++ " does not exist.") ∧
    Step.openClient ∉ (build_vector_store_from_documents envMissingDir).steps ∧
    (build_vector_store_from_documents envMissingDir).store = envMissingDir.store :=
  missingDirectoryLeavesStoreUntouched envMissingDir rfl

/-- C5: whenever documents were loaded, the parser is built with exactly the
fixed constants chunk size 1024 and chunk overlap 50 — independently of the
settings and of every collaborator behaviour, so no configuration mechanism
can change them — and on a successful run the written records are exactly the
index records of the nodes chunked under those constants. -/
theorem chunkParamsFixed (env : Env) (docs : List Document)
    (h : loadData env = Except.ok docs) :
    (build_vector_store_from_documents env).parserParams = some from_defaults ∧
    from_defaults = ⟨1024, 50⟩ ∧
    (env.clientOpenError = none → env.indexError = none →
      (build_vector_store_from_documents env).written =
        indexRecords env.embed_model
          (get_nodes_from_documents env from_defaults docs)) := by
  unfold build_vector_store_from_documents
  rw [h]
  cases hc : env.clientOpenError with
  | some e =>
      refine ⟨?_, rfl, fun hc' _ => ?_⟩
      · simp [PersistentClient, hc]
      · cases hc'
  | none =>
      cases hi : env.indexError with
      | some e =>
          refine ⟨?_, rfl, fun _ hi' => ?_⟩
          · simp [PersistentClient, hc, hi]
          · cases hi'
      | none =>
          refine ⟨?_, rfl, fun _ _ => ?_⟩ <;> simp [PersistentClient, hc, hi]

/-- C5 witness: the fixed chunking constants at a concrete successful run. -/
theorem chunkParamsFixed_witness :
    (build_vector_store_from_documents envOneDoc).parserParams = some from_defaults ∧
    from_defaults = ⟨1024, 50⟩ ∧
    (envOneDoc.clientOpenError = none → envOneDoc.indexError = none →
      (build_vector_store_from_documents envOneDoc).written =
        indexRecords envOneDoc.embed_model
          (get_nodes_from_documents envOneDoc from_defaults
            [⟨"hello world", "data/documents/a.txt"⟩])) :=
  chunkParamsFixed envOneDoc [⟨"hello world", "data/documents/a.txt"⟩] rfl

/-- C6: whenever module-level startup succeeds, the process's event sequence
is exactly: load the settings, then load the embedding model, then the
driver's external operations — so the model is loaded exactly once, before
the driver is entered and before any document is processed, and this holds in
particular for runs that then fail at the document-loading step. -/
theorem embedModelLoadedOnceBeforeIngestion (senv : ScriptEnv)
    (s : DocIngestionSettings) (m : EmbedModel)
    (hs : senv.settingsResult = Except.ok s)
    (hm : senv.embedResult = Except.ok m) :
    (runScript senv).events =
      ScriptStep.loadSettings :: ScriptStep.loadEmbedModel ::
        ((build_vector_store_from_documents (mkEnv senv s m)).steps.map
          ScriptStep.runStep) ∧
    (runScript senv).events.count ScriptStep.loadEmbedModel = 1 := by
  unfold runScript
  rw [hs, hm]
  refine ⟨rfl, ?_⟩
  show (ScriptStep.loadSettings :: ScriptStep.loadEmbedModel ::
    ((build_vector_store_from_documents (mkEnv senv s m)).steps.map
      ScriptStep.runStep)).count ScriptStep.loadEmbedModel = 1
  rw [List.count_cons, List.count_cons, count_loadEmbedModel_map_runStep]
  decide

/-- C6 witness: the event sequence of a concrete run that fails at the
document-loading step still loads the embedding model exactly once, first. -/
theorem embedModelLoadedOnceBeforeIngestion_witness :
    (runScript senvMissingDir).events =
      ScriptStep.loadSettings :: ScriptStep.loadEmbedModel ::
        ((build_vector_store_from_documents
            (mkEnv senvMissingDir settings0 embed0)).steps.map
          ScriptStep.runStep) ∧
    (runScript senvMissingDir).events.count ScriptStep.loadEmbedModel = 1 :=
  embedModelLoadedOnceBeforeIngestion senvMissingDir settings0 embed0 rfl rfl

/-- C7: a second successful run against the store left by a first successful
run, with the same collection name, passes the get-or-create step (which is
total in the model, per its idempotence contract) and appends its records
after the collection's existing contents instead of replacing them. -/
theorem secondRunAppendsToExistingCollection (env1 env2 : Env)
    (hname : env2.settings.COLLECTION_NAME = env1.settings.COLLECTION_NAME)
    (hstore : env2.store = (build_vector_store_from_documents env1).store)
    (h1 : (build_vector_store_from_documents env1).retval = 0)
    (h2 : (build_vector_store_from_documents env2).retval = 0) :
    ∃ r1,
      findCollection (build_vector_store_from_documents env1).store
          env1.settings.COLLECTION_NAME = some r1 ∧
      findCollection (build_vector_store_from_documents env2).store
          env1.settings.COLLECTION_NAME =
        some (r1 ++ (build_vector_store_from_documents env2).written) := by
  have s1 := build_success_store env1 h1
  have s2 := build_success_store env2 h2
  rw [hname] at s2
  have f1 : findCollection (build_vector_store_from_documents env1).store
      env1.settings.COLLECTION_NAME =
      some ((findCollection env1.store env1.settings.COLLECTION_NAME).getD [] ++
        (build_vector_store_from_documents env1).written) := by
    rw [s1]
    exact findCollection_addToCollection _ _ _ _
      (findCollection_get_or_create env1.store env1.settings.COLLECTION_NAME)
  refine ⟨(findCollection env1.store env1.settings.COLLECTION_NAME).getD [] ++
    (build_vector_store_from_documents env1).written, f1, ?_⟩
  have hf2 : findCollection env2.store env1.settings.COLLECTION_NAME =
      some ((findCollection env1.store env1.settings.COLLECTION_NAME).getD [] ++
        (build_vector_store_from_documents env1).written) := by
    rw [hstore]
    exact f1
  have hg : findCollection
      (get_or_create_collection env2.store env1.settings.COLLECTION_NAME)
      env1.settings.COLLECTION_NAME =
      some ((findCollection env1.store env1.settings.COLLECTION_NAME).getD [] ++
        (build_vector_store_from_documents env1).written) := by
    rw [findCollection_get_or_create, hf2]
    rfl
  rw [s2]
  exact findCollection_addToCollection _ _ _ _ hg

/-- The second run of the concrete double-run scenario: identical
collaborators, starting from the store the first run left behind. -/
def envSecondRun : Env :=
  { envOneDoc with store := (build_vector_store_from_documents envOneDoc).store }

/-- C7 witness: the concrete double run appends. -/
theorem secondRunAppendsToExistingCollection_witness :
    ∃ r1,
      findCollection (build_vector_store_from_documents envOneDoc).store
          envOneDoc.settings.COLLECTION_NAME = some r1 ∧
      findCollection (build_vector_store_from_documents envSecondRun).store
          envOneDoc.settings.COLLECTION_NAME =
        some (r1 ++ (build_vector_store_from_documents envSecondRun).written) :=
  secondRunAppendsToExistingCollection envOneDoc envSecondRun rfl rfl rfl rfl

/-- C8: every record a run writes carries an embedding vector whose length is
exactly the embedding model's declared output dimension. -/
theorem writtenVectorsHaveModelDim (env : Env) (r : Record)
    (h : r ∈ (build_vector_store_from_documents env).written) :
    r.vector.length = env.embed_model.dim := by
  cases hl : loadData env with
  | error e =>
      simp [build_vector_store_from_documents, hl] at h
  | ok docs =>
      cases hc : env.clientOpenError with
      | some e =>
          simp [build_vector_store_from_documents, PersistentClient, hl, hc] at h
      | none =>
          cases hi : env.indexError with
          | some e =>
              simp [build_vector_store_from_documents, PersistentClient,
                hl, hc, hi] at h
          | none =>
              simp only [build_vector_store_from_documents, PersistentClient,
                hl, hc, hi] at h
              exact indexRecords_dim env.embed_model _ r h

/-- C8 witness: the one record the concrete run writes has a vector of the
model's declared dimension 3. -/
theorem writtenVectorsHaveModelDim_witness :
    (⟨[0, 1, 2], "hello world", "data/documents/a.txt"⟩ : Record).vector.length =
      envOneDoc.embed_model.dim :=
  writtenVectorsHaveModelDim envOneDoc
    ⟨[0, 1, 2], "hello world", "data/documents/a.txt"⟩ (by decide)

/-- C9 counterexample: the script does emit log lines, but `logging.basicConfig`
with no stream argument installs a handler on the standard error stream, not
the standard output stream the claim names. -/
theorem logsGoToStderrNotStdout :
    handlerStream ≠ OutStream.stdout ∧
    (runScript senvOneDoc).logs ≠ [] := by
  constructor
  · decide
  · intro h
    cases h

/-- C9 (amended): every log record the script emits is at INFO or ERROR
level, is rendered by the configured single-line format
`asctime - levelname - message`, and is written to the standard error
stream. -/
theorem logLinesLevelFormatAndStream (senv : ScriptEnv) (l : LogLine)
    (h : l ∈ (runScript senv).logs) :
    (l.1 = Level.INFO ∨ l.1 = Level.ERROR) ∧
    handlerStream = OutStream.stderr ∧
    ∀ asctime, formatLogLine asctime l =
      asctime ++ " - " ++ Level.name l.1 ++ " - " ++ l.2 := by
  refine ⟨?_, rfl, fun _ => rfl⟩
  cases hl : l.1 with
  | INFO => exact Or.inl rfl
  | ERROR => exact Or.inr rfl

/-- C9 witness: the amended property at the first log line of a concrete
run. -/
theorem logLinesLevelFormatAndStream_witness :
    (((Level.INFO, "Loading HuggingFace embedding model...") : LogLine).1 =
        Level.INFO ∨
      ((Level.INFO, "Loading HuggingFace embedding model...") : LogLine).1 =
        Level.ERROR) ∧
    handlerStream = OutStream.stderr ∧
    ∀ asctime,
      formatLogLine asctime (Level.INFO, "Loading HuggingFace embedding model...") =
        asctime ++ " - " ++
          Level.name ((Level.INFO, "Loading HuggingFace embedding model...") :
            LogLine).1 ++ " - " ++
          ((Level.INFO, "Loading HuggingFace embedding model...") : LogLine).2 :=
  logLinesLevelFormatAndStream senvOneDoc
    (Level.INFO, "Loading HuggingFace embedding model...") (by decide)

/-- C10: the persistent client is opened only after document loading and node
parsing (its step follows exactly those two in every run that reaches it),
and on any run whose loader fails the client is never opened and the store is
exactly what it was before the run. -/
theorem clientOpenedOnlyAfterLoadAndParse (env : Env) :
    (Step.openClient ∈ (build_vector_store_from_documents env).steps →
      (build_vector_store_from_documents env).steps.take 3 =
        [Step.loadDocs, Step.parseNodes, Step.openClient]) ∧
    (∀ e, loadData env = Except.error e →
      Step.openClient ∉ (build_vector_store_from_documents env).steps ∧
      (build_vector_store_from_documents env).store = env.store) := by
  cases hl : loadData env with
  | error e =>
      constructor
      · intro hmem
        simp [build_vector_store_from_documents, hl] at hmem
      · intro e' _
        refine ⟨?_, ?_⟩
        · simp [build_vector_store_from_documents, hl]
        · simp [build_vector_store_from_documents, hl]
  | ok docs =>
      constructor
      · intro _
        cases hc : PersistentClient env with
        | error e =>
            simp [build_vector_store_from_documents, hl, hc]
        | ok db =>
            cases hi : env.indexError with
            | some e => simp [build_vector_store_from_documents, hl, hc, hi]
            | none => simp [build_vector_store_from_documents, hl, hc, hi]
      · intro e he
        cases he

end Ingest
